import Mathlib

/-!
Verification of the wazuh-mcp-server core against its specification.

The Python source is shallowly embedded: each definition below mirrors one
function or data shape of the repository.  File/line references are given in
the doc comments.  Strings are Lean strings; Python float timestamps are
modelled as integers (claims only involve whole-second arithmetic); Python
dictionaries are modelled as association lists; the case folding performed by
str.lower() / str.upper() is modelled by ASCII case folding, which agrees with
Python on every identifier appearing in the repository.
-/

/-- ASCII lower-casing, modelling str.lower() as used on tool and category
names in tools/tool_filter.py. -/
def strLower (s : String) : String := String.mk (s.data.map Char.toLower)

/-- ASCII upper-casing, modelling str.upper() as applied to the http_method
metadata value in tools/tool_filter.py line 110. -/
def strUpper (s : String) : String := String.mk (s.data.map Char.toUpper)

/-- The optional _meta attribute attached to a registered tool function
(tools/tool_filter.py module docstring).  Both keys are optional: the Python
code reads them with dict.get and a default. -/
structure ToolMeta where
  category : Option String
  http_method : Option String
deriving DecidableEq, Repr

/-- One entry of TOOL_REGISTRY (tools/tools.py): a registered tool function,
identified by its registration name, carrying its optional _meta attribute.
The handler body itself is modelled separately (see callTool and
get_agents_tool_run below). -/
structure Tool where
  name : String
  meta : Option ToolMeta
deriving DecidableEq, Repr

/-- getattr(fn, "_meta", {}).get("category", "") from tools/tool_filter.py
line 100. -/
def toolCategory (t : Tool) : String :=
  ((t.meta.bind fun m => m.category).getD (""))

/-- getattr(fn, "_meta", {}).get("http_method", "GET").upper() from
tools/tool_filter.py line 110. -/
def toolHttpMethod (t : Tool) : String :=
  strUpper ((t.meta.bind fun m => m.http_method).getD ("GET"))

/-- _SAFE_HTTP_METHODS from tools/tool_filter.py line 26. -/
def SAFE_HTTP_METHODS : List String := ["GET", "HEAD", "OPTIONS"]

/-- The filter configuration consumed by get_enabled_tools, after the glue
parsing (env-var splitting and YAML loading) has produced the raw item lists.
The env_ fields come from WAZUH_DISABLED_TOOLS / WAZUH_DISABLED_CATEGORIES /
WAZUH_DISABLED_TOOLS_REGEX / WAZUH_READ_ONLY; the yaml_ fields come from the
filter: section of the optional YAML file.  A compiled regular expression is
modelled by its match predicate r.search. -/
structure FilterConfig where
  env_disabled_tools : List String
  yaml_disabled_tools : List String
  env_disabled_categories : List String
  yaml_disabled_categories : List String
  env_disabled_regex : List (String → Bool)
  yaml_disabled_regex : List (String → Bool)
  read_only : Bool

/-- The union of environment and file deny lists for tool names, lower-cased
(tools/tool_filter.py lines 77-80; _split_env lower-cases env items, the YAML
items are lower-cased at the use site). -/
def disabledNames (cfg : FilterConfig) : List String :=
  (cfg.env_disabled_tools ++ cfg.yaml_disabled_tools).map strLower

/-- The union of environment and file deny lists for categories, lower-cased
(tools/tool_filter.py lines 81-84). -/
def disabledCats (cfg : FilterConfig) : List String :=
  (cfg.env_disabled_categories ++ cfg.yaml_disabled_categories).map strLower

/-- The combined list of compiled deny regexes (tools/tool_filter.py lines
85-88). -/
def disabledRegex (cfg : FilterConfig) : List (String → Bool) :=
  cfg.env_disabled_regex ++ cfg.yaml_disabled_regex

/-- Check 1 of get_enabled_tools: lname in disabled_names
(tools/tool_filter.py lines 95-97). -/
def nameDenied (cfg : FilterConfig) (t : Tool) : Bool :=
  (disabledNames cfg).contains (strLower t.name)

/-- Check 2 of get_enabled_tools: cat.lower() in disabled_cats
(tools/tool_filter.py lines 99-102). -/
def catDenied (cfg : FilterConfig) (t : Tool) : Bool :=
  (disabledCats cfg).contains (strLower (toolCategory t))

/-- Check 3 of get_enabled_tools: any(r.search(name) for r in disabled_regex)
(tools/tool_filter.py lines 104-106). -/
def regexDenied (cfg : FilterConfig) (t : Tool) : Bool :=
  (disabledRegex cfg).any fun r => r t.name

/-- The loop body of get_enabled_tools (tools/tool_filter.py lines 92-114):
a tool survives when none of the four continue branches fires. -/
def survives (cfg : FilterConfig) (t : Tool) : Bool :=
  if nameDenied cfg t then false
  else if catDenied cfg t then false
  else if regexDenied cfg t then false
  else if cfg.read_only then SAFE_HTTP_METHODS.contains (toolHttpMethod t)
  else true

/-- get_enabled_tools (tools/tool_filter.py lines 52-116): the sub-dictionary
of the registry that survives all allow/deny checks.  The dictionary is
modelled as the list of its entries (keys are unique, order irrelevant). -/
def get_enabled_tools (registry : List Tool) (cfg : FilterConfig) : List Tool :=
  registry.filter (survives cfg)

/-- A FilterConfig that deactivates tools by name only: envTools via the
WAZUH_DISABLED_TOOLS environment variable, yamlTools via the YAML file, all
other deny rules empty and read-only off. -/
def nameOnlyConfig (envTools yamlTools : List String) : FilterConfig where
  env_disabled_tools := envTools
  yaml_disabled_tools := yamlTools
  env_disabled_categories := []
  yaml_disabled_categories := []
  env_disabled_regex := []
  yaml_disabled_regex := []
  read_only := false

/-- A FilterConfig whose only active rule is WAZUH_READ_ONLY=true. -/
def readOnlyConfig : FilterConfig where
  env_disabled_tools := []
  yaml_disabled_tools := []
  env_disabled_categories := []
  yaml_disabled_categories := []
  env_disabled_regex := []
  yaml_disabled_regex := []
  read_only := true

/-- AuthenticateTool as registered in tools/tools.py lines 15-25: the
decorated function carries no _meta attribute. -/
def auth_tool : Tool where
  name := "AuthenticateTool"
  meta := none

/-- GetAgentsTool as registered in tools/tools.py lines 27-35: the decorated
function carries no _meta attribute. -/
def get_agents_tool : Tool where
  name := "GetAgentsTool"
  meta := none

/-- TOOL_REGISTRY from tools/tools.py: the two registered tools. -/
def TOOL_REGISTRY : List Tool := [auth_tool, get_agents_tool]

/-- Byte length of the UTF-8 encoding of a string, modelling len(s.encode())
from tools/utils.py line 17.  Strings are handled as their character lists. -/
def utf8Length (s : List Char) : Nat := (s.map Char.utf8Size).sum

/-- The fixed placeholder appended by safe_truncate (tools/utils.py line 12,
default argument).  Its UTF-8 encoding is 15 bytes long. -/
def truncMarker : List Char := (" …[truncated]").data

/-- s.encode()[:n].decode(errors="ignore") for a valid string s: the longest
prefix of the characters of s whose UTF-8 encodings fit completely inside the
first n bytes; the trailing bytes of a character cut by the slice are invalid
on their own and are dropped by errors="ignore" (tools/utils.py line 19). -/
def decodeIgnore : List Char → Nat → List Char
  | [], _ => []
  | c :: cs, n => if c.utf8Size ≤ n then c :: decodeIgnore cs (n - c.utf8Size) else []

/-- safe_truncate from tools/utils.py lines 12-20 with its default
placeholder: if the UTF-8 encoding of s is at most limit bytes the string is
returned unchanged, otherwise the encoding is sliced to
limit - len(placeholder.encode()) bytes, decoded ignoring errors, and the
placeholder is appended.  The function is modelled for limit at least the
15-byte placeholder length, which covers every call site. -/
def safe_truncate (s : List Char) (limit : Nat) : List Char :=
  if utf8Length s ≤ limit then s
  else decodeIgnore s (limit - utf8Length truncMarker) ++ truncMarker

/-- A parsed JSON value / generic Python value, as far as the client code
inspects one: strings, integers, null, and string-keyed objects. -/
inductive PyVal where
  | null
  | str (s : String)
  | num (n : Int)
  | obj (fields : List (String × PyVal))

/-- Python truthiness of a value, as used by the conditions
if self._token and ... (client.py line 22) and if registry and ...
(client.py line 44). -/
def PyVal.truthy : PyVal → Bool
  | PyVal.null => false
  | PyVal.str s => decide (s ≠ "")
  | PyVal.num n => decide (n ≠ 0)
  | PyVal.obj fields => !fields.isEmpty

/-- The exceptions that can cross the boundaries the claims talk about.
httpStatusError, connectError, jsonDecodeError come from httpx; keyError,
typeError, valueError, indexError are the Python builtins; the repository
additionally defines WazuhAuthenticationError
(wazuh_mcp_server/exceptions.py lines 12-15). -/
inductive PyError where
  | httpStatusError (status : Nat)
  | connectError
  | jsonDecodeError
  | keyError (key : String)
  | typeError (msg : String)
  | valueError (msg : String)
  | indexError
  | wazuhAuthenticationError
deriving DecidableEq, Repr

/-- The class name of an exception: its error kind as observable by a
caller. -/
def errKind : PyError → String
  | PyError.httpStatusError _ => "HTTPStatusError"
  | PyError.connectError => "ConnectError"
  | PyError.jsonDecodeError => "JSONDecodeError"
  | PyError.keyError _ => "KeyError"
  | PyError.typeError _ => "TypeError"
  | PyError.valueError _ => "ValueError"
  | PyError.indexError => "IndexError"
  | PyError.wazuhAuthenticationError => "WazuhAuthenticationError"

/-- Python subscription value[key]: looks the key up in an object, raising
KeyError when absent and TypeError when the value is not a dictionary
(client.py line 27, data = r.json()["data"] and data["token"]). -/
def getItem (v : PyVal) (key : String) : Except PyError PyVal :=
  match v with
  | PyVal.obj fields =>
    match fields.lookup key with
    | some w => Except.ok w
    | none => Except.error (PyError.keyError key)
  | _ => Except.error (PyError.typeError ("value is not subscriptable"))

/-- The mutable token state of one WazuhClient: the _token and _expiry
attributes (src/wazuh_mcp_server/client.py lines 9-10).  The float clock is
modelled with integer seconds. -/
structure ClientState where
  token : Option PyVal
  expiry : Int

/-- The guard of _refresh_token (client.py line 22):
self._token and self._expiry - time.time() > 60. -/
def tokenValid (st : ClientState) (now : Int) : Bool :=
  (match st.token with
   | none => false
   | some t => t.truthy) && decide (st.expiry - now > 60)

/-- What the network returns for the authentication POST to
/security/user/authenticate: either a transport failure, or a response with a
status code and a body; body = none models a payload that r.json() fails to
parse. -/
inductive HttpOutcome where
  | netFail
  | response (status : Nat) (body : Option PyVal)

/-- The result of one _refresh_token invocation: the exception it raised (if
any), the client state it left behind, and how many authentication POSTs it
issued. -/
structure RefreshOut where
  err : Option PyError
  state : ClientState
  authCalls : Nat

/-- The body of one authentication attempt, i.e. _refresh_token past its
guard (client.py lines 24-29): POST, raise_for_status (httpx raises for
status 400 and above), parse JSON, take ["data"]["token"], then assign
_token and _expiry = now + 900.  On every failing path the state is whatever
it was at entry, because both assignments are placed after the last failure
point. -/
def authAttempt (st : ClientState) (now : Int) (net : HttpOutcome) :
    Option PyError × ClientState :=
  match net with
  | HttpOutcome.netFail => (some PyError.connectError, st)
  | HttpOutcome.response status body =>
    if 400 ≤ status then (some (PyError.httpStatusError status), st)
    else
      match body with
      | none => (some PyError.jsonDecodeError, st)
      | some payload =>
        match getItem payload ("data") with
        | Except.error e => (some e, st)
        | Except.ok data =>
          match getItem data ("token") with
          | Except.error e => (some e, st)
          | Except.ok tok =>
            (none, { token := some tok, expiry := now + 900 })

/-- _refresh_token (src/wazuh_mcp_server/client.py lines 21-30): a no-op
when a truthy token has more than 60 seconds of life left, otherwise one
authentication attempt. -/
def refresh_token (st : ClientState) (now : Int) (net : HttpOutcome) : RefreshOut :=
  if tokenValid st now then ⟨none, st, 0⟩
  else
    match authAttempt st now net with
    | (e, st2) => ⟨e, st2, 1⟩

/-- The result of one request invocation: raised exception, final state,
authentication POSTs issued, and outbound API calls performed. -/
structure RequestOut where
  err : Option PyError
  state : ClientState
  authCalls : Nat
  apiCalls : Nat

/-- request (src/wazuh_mcp_server/client.py lines 32-36): awaits
_refresh_token first (an exception there propagates before any outbound
call), then performs the HTTP call with the bearer token injected. -/
def request (st : ClientState) (now : Int) (net : HttpOutcome) : RequestOut :=
  match refresh_token st now net with
  | ⟨some e, st2, n⟩ => ⟨some e, st2, n, 0⟩
  | ⟨none, st2, n⟩ => ⟨none, st2, n, 1⟩

/-- ClusterConfig (src/wazuh_mcp_server/env_config.py): the static
description of one Wazuh manager endpoint. -/
structure ClusterConfig where
  name : String
  api_url : String
  username : String
  password : String
  ssl_verify : Bool
deriving DecidableEq, Repr

/-- A constructed WazuhClient, identified by the cluster configuration it was
built from together with its initial token state (the HTTP session object is
not observable by any claim). -/
structure WClient where
  cluster : ClusterConfig
  st : ClientState

/-- WazuhClient.__init__ (src/wazuh_mcp_server/client.py lines 12-19): a
fresh client starts with the class defaults _token = None, _expiry = 0.0. -/
def mkWazuhClient (c : ClusterConfig) : WClient :=
  ⟨c, ⟨none, 0⟩⟩

/-- Truthiness of the registry argument of get_client: None and the empty
dictionary are falsy. -/
def registryTruthy : Option (List (String × ClusterConfig)) → Bool
  | none => false
  | some entries => !entries.isEmpty

/-- get_client (src/wazuh_mcp_server/client.py lines 39-51).  The module
level global _client is threaded explicitly as gclient; the result pairs the
returned client with the new value of the global.  The body never reads
cluster_name: when a client is already cached it is returned as is; on first
use the client is built from registry["default"] when the registry is truthy
and holds that key, and otherwise from the first entry of the environment
configuration (config.clusters[0], an IndexError when that list is empty). -/
def get_client (gclient : Option WClient) (cluster_name : String)
    (registry : Option (List (String × ClusterConfig)))
    (env_clusters : List ClusterConfig) :
    Except PyError (WClient × Option WClient) :=
  match gclient with
  | some c => Except.ok (c, some c)
  | none =>
    match (if registryTruthy registry
           then (registry.getD []).lookup ("default")
           else none) with
    | some cfg =>
      Except.ok (mkWazuhClient cfg, some (mkWazuhClient cfg))
    | none =>
      match env_clusters with
      | [] => Except.error PyError.indexError
      | cfg :: _ => Except.ok (mkWazuhClient cfg, some (mkWazuhClient cfg))

/-- Progress of one concurrent request coroutine through _refresh_token,
split at its only suspension point: ready = about to run the expiry check;
awaitingAuth = the check failed, the authentication POST has been issued and
the coroutine is suspended awaiting the response; finished = done. -/
inductive TaskPhase where
  | ready
  | awaitingAuth
  | finished
deriving DecidableEq, Repr

/-- The shared state of several concurrent request coroutines against one
client: the client token state, each coroutine phase, and the number of
authentication POSTs issued so far. -/
structure ConcState where
  st : ClientState
  phases : List TaskPhase
  authCalls : Nat

/-- One scheduler step of coroutine i under the asyncio event loop.  A ready
coroutine atomically runs the expiry check; if the token is valid it skips
the refresh and finishes, otherwise it issues the authentication POST and
suspends (client.py lines 22-25).  A suspended coroutine resumes with the
token payload and atomically stores _token and _expiry (lines 26-29; there is
no await between the two assignments). -/
def stepTask (now : Int) (authTok : PyVal) (s : ConcState) (i : Nat) : ConcState :=
  match s.phases.get? i with
  | none => s
  | some TaskPhase.ready =>
    if tokenValid s.st now then
      { s with phases := s.phases.set i TaskPhase.finished }
    else
      { s with phases := s.phases.set i TaskPhase.awaitingAuth,
               authCalls := s.authCalls + 1 }
  | some TaskPhase.awaitingAuth =>
    { s with st := { token := some authTok, expiry := now + 900 },
             phases := s.phases.set i TaskPhase.finished }
  | some TaskPhase.finished => s

/-- Run a whole interleaving: the event loop picks coroutines in the order
given by the schedule. -/
def runSchedule (now : Int) (authTok : PyVal) (sched : List Nat) (s : ConcState) :
    ConcState :=
  sched.foldl (stepTask now authTok) s

/-- Two request coroutines started against one client in state st, neither
yet scheduled. -/
def twoTasks (st : ClientState) : ConcState :=
  ⟨st, [TaskPhase.ready, TaskPhase.ready], 0⟩

/-- The outcome of the call_tool dispatcher for one inbound invocation:
either the looked-up handler was invoked with the arguments, or an exception
was raised before any handler ran. -/
inductive CallOutcome where
  | invoked (toolName : String) (arguments : PyVal)
  | raised (e : PyError)

/-- call_tool (src/wazuh_mcp_server/streaming_server.py lines 48-53): the
name is looked up in ENABLED_TOOLS only; on a miss a ValueError stating that
the tool is disabled or unknown is raised, otherwise the found handler is
awaited on the arguments. -/
def call_tool (enabled : List Tool) (name : String) (arguments : PyVal) :
    CallOutcome :=
  match enabled.find? (fun t => t.name == name) with
  | none => CallOutcome.raised
      (PyError.valueError ("Tool " ++ name ++ " is disabled or unknown"))
  | some t => CallOutcome.invoked t.name arguments

/-- Comma-join of a list of names, for TypeError messages. -/
def joinComma : List String → String
  | [] => ""
  | [x] => x
  | x :: xs => x ++ ", " ++ joinComma xs

/-- Python call binding for a function whose parameters are names (none of
which has a default), called with nPos positional arguments and the keyword
arguments kw: binding fails with a TypeError when there are more positional
arguments than parameters, an unexpected keyword, a keyword for a parameter
already filled positionally, or a parameter left unfilled.  The function body
runs only when binding succeeds. -/
def bindCheck (fname : String) (names : List String) (nPos : Nat)
    (kw : List String) : Except PyError Unit :=
  if names.length < nPos then
    Except.error (PyError.typeError (fname ++ "() takes " ++
      toString names.length ++ " positional arguments but more were given"))
  else if kw.any (fun k => !(names.contains k)) then
    Except.error (PyError.typeError (fname ++
      "() got an unexpected keyword argument"))
  else if kw.any (fun k => (names.take nPos).contains k) then
    Except.error (PyError.typeError (fname ++
      "() got multiple values for an argument"))
  else
    match ((names.drop nPos).filter fun n => !(kw.contains n)) with
    | [] => Except.ok ()
    | missing => Except.error (PyError.typeError (fname ++
        "() missing required positional arguments: " ++ joinComma missing))

/-- The parameter list of list_agents
(src/src/wazuh_mcp_server/helper.py line 7): cluster_name, registry, params,
none with a default. -/
def list_agents_params : List String := ["cluster_name", "registry", "params"]

/-- The outcome of one tool handler invocation: its result or exception, and
the number of outbound Wazuh API requests it performed. -/
structure ToolCallOut where
  result : Except PyError PyVal
  apiCalls : Nat

/-- The body of list_agents (src/src/wazuh_mcp_server/helper.py lines 7-11),
reached only if its call binds: get_client, then one authenticated GET of
/agents through request, returning the response payload. -/
def list_agents_body (st : ClientState) (now : Int) (authNet : HttpOutcome)
    (apiResp : PyVal) : ToolCallOut :=
  match request st now authNet with
  | ⟨some e, _, _, _⟩ => ⟨Except.error e, 0⟩
  | ⟨none, _, _, _⟩ => ⟨Except.ok apiResp, 1⟩

/-- The body of the GetAgentsTool handler (src/src/tools/tools.py lines
27-35): it evaluates the call list_agents(registry, params=...), i.e. one
positional argument and the single keyword argument params; Python binds
that call against the parameters of list_agents before the body of
list_agents can run. -/
def get_agents_tool_run (st : ClientState) (now : Int) (authNet : HttpOutcome)
    (apiResp : PyVal) : ToolCallOut :=
  match bindCheck ("list_agents") list_agents_params 1 [("params")] with
  | Except.error e => ⟨Except.error e, 0⟩
  | Except.ok _ => list_agents_body st now authNet apiResp

/-- A hypothetical registered tool declaring http_method POST, for
exercising the read-only filter. -/
def restart_tool : Tool where
  name := "RestartAgentTool"
  meta := some ⟨some ("agents"), some ("POST")⟩

/-- A hypothetical registered tool declaring http_method GET, for exercising
the read-only filter. -/
def list_tool : Tool where
  name := "ListAgentsTool"
  meta := some ⟨some ("agents"), some ("GET")⟩

/-- A registry holding one POST-declaring and one GET-declaring tool. -/
def verbRegistry : List Tool := [restart_tool, list_tool]

/-- Sample tools named Alpha, Beta and Gamma for the deny-list union. -/
def alphaTool : Tool := ⟨"Alpha", none⟩

def betaTool : Tool := ⟨"Beta", none⟩

def gammaTool : Tool := ⟨"Gamma", none⟩

/-- A registry holding the three sample tools. -/
def abcRegistry : List Tool := [alphaTool, betaTool, gammaTool]

/-- A filter configuration denying AuthenticateTool by name via the
environment. -/
def denyAuthConfig : FilterConfig := nameOnlyConfig [("AuthenticateTool")] []

/-- A 40000-byte payload: 40000 ASCII characters. -/
def c3input : List Char := List.replicate 40000 'a'

/-- A 20000-byte payload used as a second oversized example. -/
def c3altInput : List Char := List.replicate 20000 'b'

/-- A client state holding a truthy token with 1000 seconds of life. -/
def validState : ClientState := ⟨some (PyVal.str ("tok")), 1000⟩

/-- A client state holding a token that expired long ago. -/
def staleState : ClientState := ⟨some (PyVal.str ("old-token")), 0⟩

/-- The state of a freshly constructed client: no token at all. -/
def expiredState : ClientState := ⟨none, 0⟩

/-- A sample cluster configuration registered under the key default. -/
def cfgA : ClusterConfig := ⟨"default", "https://a.example", "admin", "secret", true⟩

/-- The client constructed from cfgA. -/
def clientA : WClient := mkWazuhClient cfgA

/-- A registry holding only the default cluster, as built by
serve_streaming (src/wazuh_mcp_server/streaming_server.py lines 20-23). -/
def defaultRegistry : List (String × ClusterConfig) := [("default", cfgA)]

/-! Helper lemmas about the policy filter. -/

theorem survives_iff (cfg : FilterConfig) (t : Tool) :
    survives cfg t = true ↔
      nameDenied cfg t = false ∧ catDenied cfg t = false ∧
      regexDenied cfg t = false ∧
      (cfg.read_only = true →
        SAFE_HTTP_METHODS.contains (toolHttpMethod t) = true) := by
  unfold survives
  cases h1 : nameDenied cfg t <;> cases h2 : catDenied cfg t <;>
    cases h3 : regexDenied cfg t <;> cases h4 : cfg.read_only <;>
      simp [h1, h2, h3, h4]

theorem mem_enabled_iff (registry : List Tool) (cfg : FilterConfig) (t : Tool) :
    t ∈ get_enabled_tools registry cfg ↔ t ∈ registry ∧ survives cfg t = true := by
  unfold get_enabled_tools
  exact List.mem_filter

/-- Claim C1: with WAZUH_READ_ONLY enabled, an operation whose declared
http_method upper-cases to something outside GET/HEAD/OPTIONS is excluded
from the enabled set even when no name, category or regex rule denies it,
while an operation whose declared verb upper-cases to GET and that no other
rule denies stays enabled. -/
theorem readonly_enforcement (registry : List Tool) (cfg : FilterConfig)
    (t : Tool) (m : ToolMeta) (v : String) (hro : cfg.read_only = true)
    (hm : t.meta = some m) (hv : m.http_method = some v) :
    (SAFE_HTTP_METHODS.contains (strUpper v) = false →
        t ∉ get_enabled_tools registry cfg) ∧
    (t ∈ registry → strUpper v = "GET" → nameDenied cfg t = false →
        catDenied cfg t = false → regexDenied cfg t = false →
        t ∈ get_enabled_tools registry cfg) := by
  have hmethod : toolHttpMethod t = strUpper v := by
    simp [toolHttpMethod, hm, hv]
  constructor
  · intro hunsafe hmem
    rcases (mem_enabled_iff registry cfg t).1 hmem with ⟨-, hs⟩
    rcases (survives_iff cfg t).1 hs with ⟨-, -, -, hsafe⟩
    rw [hmethod, hunsafe] at hsafe
    exact Bool.false_ne_true (hsafe hro)
  · intro hreg hget hn hc hr
    refine (mem_enabled_iff registry cfg t).2 ⟨hreg, (survives_iff cfg t).2 ⟨hn, hc, hr, ?_⟩⟩
    intro _
    rw [hmethod, hget]
    decide

/-- Claim C1 witness: under read-only, the POST-declaring tool is dropped
and the GET-declaring tool is kept. -/
theorem readonly_enforcement_witness :
    readOnlyConfig.read_only = true ∧
    restart_tool ∉ get_enabled_tools verbRegistry readOnlyConfig ∧
    list_tool ∈ get_enabled_tools verbRegistry readOnlyConfig := by
  refine ⟨rfl, ?_, ?_⟩
  · exact (readonly_enforcement verbRegistry readOnlyConfig restart_tool
      ⟨some ("agents"), some ("POST")⟩ ("POST") rfl rfl rfl).1 (by decide)
  · exact (readonly_enforcement verbRegistry readOnlyConfig list_tool
      ⟨some ("agents"), some ("GET")⟩ ("GET") rfl rfl rfl).2 (by decide)
      (by decide) (by decide) (by decide) (by decide)

/-- Claim C2: environment and file deny lists combine by union.  With names A
denied via the environment and B denied via the file (and no other rules), a
registered tool whose lower-cased name matches A or B is absent from the
enabled set, and a registered tool matching neither is present. -/
theorem policy_union_most_restrictive (registry : List Tool) (A B : String)
    (t : Tool) (ht : t ∈ registry) :
    (strLower t.name = strLower A ∨ strLower t.name = strLower B →
        t ∉ get_enabled_tools registry (nameOnlyConfig [A] [B])) ∧
    (strLower t.name ≠ strLower A → strLower t.name ≠ strLower B →
        t ∈ get_enabled_tools registry (nameOnlyConfig [A] [B])) := by
  have hform : nameDenied (nameOnlyConfig [A] [B]) t
      = (decide (strLower t.name = strLower A)
          || decide (strLower t.name = strLower B)) := by
    simp [nameDenied, disabledNames, nameOnlyConfig, List.contains]
  constructor
  · intro hor hmem
    rcases (mem_enabled_iff _ _ _).1 hmem with ⟨-, hs⟩
    rcases (survives_iff _ _).1 hs with ⟨hn, -, -, -⟩
    rw [hform] at hn
    rcases hor with h | h <;> simp [h] at hn
  · intro hA hB
    refine (mem_enabled_iff _ _ _).2 ⟨ht, (survives_iff _ _).2 ⟨?_, rfl, rfl, ?_⟩⟩
    · rw [hform]
      simp [hA, hB]
    · intro h
      exact (Bool.false_ne_true h).elim

/-- Claim C2 witness: with alpha denied via the environment and BETA via the
file, Alpha and Beta are gone and Gamma remains. -/
theorem policy_union_most_restrictive_witness :
    alphaTool ∈ abcRegistry ∧
    alphaTool ∉ get_enabled_tools abcRegistry (nameOnlyConfig [("alpha")] [("BETA")]) ∧
    betaTool ∉ get_enabled_tools abcRegistry (nameOnlyConfig [("alpha")] [("BETA")]) ∧
    gammaTool ∈ get_enabled_tools abcRegistry (nameOnlyConfig [("alpha")] [("BETA")]) := by
  refine ⟨by decide, ?_, ?_, ?_⟩
  · exact (policy_union_most_restrictive abcRegistry ("alpha") ("BETA") alphaTool
      (by decide)).1 (Or.inl (by decide))
  · exact (policy_union_most_restrictive abcRegistry ("alpha") ("BETA") betaTool
      (by decide)).1 (Or.inr (by decide))
  · exact (policy_union_most_restrictive abcRegistry ("alpha") ("BETA") gammaTool
      (by decide)).2 (by decide) (by decide)

/-- Claim C9: a registered tool whose function carries no _meta attribute
gets category empty-string and http_method GET by default, so (unless a
name, category or regex rule denies it) it stays in the enabled set even
under WAZUH_READ_ONLY, whatever side effects the handler has. -/
theorem meta_defaults_survive_readonly (registry : List Tool)
    (cfg : FilterConfig) (t : Tool) (hmeta : t.meta = none) (ht : t ∈ registry)
    (hn : nameDenied cfg t = false) (hc : catDenied cfg t = false)
    (hr : regexDenied cfg t = false) :
    toolCategory t = "" ∧ toolHttpMethod t = "GET" ∧
      t ∈ get_enabled_tools registry cfg := by
  have h1 : toolCategory t = "" := by
    simp [toolCategory, hmeta]
  have h2 : toolHttpMethod t = "GET" := by
    simp [toolHttpMethod, hmeta]
    decide
  refine ⟨h1, h2, (mem_enabled_iff _ _ _).2 ⟨ht, (survives_iff _ _).2 ⟨hn, hc, hr, ?_⟩⟩⟩
  intro _
  rw [h2]
  decide

/-- Claim C9 witness: AuthenticateTool, registered without _meta, remains in
the enabled set when WAZUH_READ_ONLY is true. -/
theorem meta_defaults_survive_readonly_witness :
    auth_tool.meta = none ∧ readOnlyConfig.read_only = true ∧
    (toolCategory auth_tool = "" ∧ toolHttpMethod auth_tool = "GET" ∧
      auth_tool ∈ get_enabled_tools TOOL_REGISTRY readOnlyConfig) := by
  exact ⟨rfl, rfl, meta_defaults_survive_readonly TOOL_REGISTRY readOnlyConfig
    auth_tool rfl (by decide) (by decide) (by decide) (by decide)⟩

/-! Helper lemmas about UTF-8 byte lengths and truncation. -/

theorem utf8Length_cons (c : Char) (s : List Char) :
    utf8Length (c :: s) = c.utf8Size + utf8Length s := by
  simp [utf8Length]

theorem utf8Length_append (s t : List Char) :
    utf8Length (s ++ t) = utf8Length s + utf8Length t := by
  simp [utf8Length]

theorem utf8Length_replicate (n : Nat) (c : Char) :
    utf8Length (List.replicate n c) = n * c.utf8Size := by
  simp [utf8Length, List.map_replicate, List.sum_replicate, smul_eq_mul]

theorem utf8Length_eq_zero {s : List Char} (h : utf8Length s = 0) : s = [] := by
  cases s with
  | nil => rfl
  | cons c t =>
    rw [utf8Length_cons] at h
    have := Char.utf8Size_pos c
    omega

theorem decodeIgnore_le (s : List Char) (n : Nat) :
    utf8Length (decodeIgnore s n) ≤ n := by
  induction s generalizing n with
  | nil => simp [decodeIgnore, utf8Length]
  | cons c t ih =>
    by_cases h : c.utf8Size ≤ n
    · rw [decodeIgnore, if_pos h, utf8Length_cons]
      have := ih (n - c.utf8Size)
      omega
    · rw [decodeIgnore, if_neg h]
      simp [utf8Length]

theorem decodeIgnore_extends (s : List Char) (n : Nat) :
    ∃ rest, decodeIgnore s n ++ rest = s := by
  induction s generalizing n with
  | nil => exact ⟨[], rfl⟩
  | cons c t ih =>
    by_cases h : c.utf8Size ≤ n
    · rcases ih (n - c.utf8Size) with ⟨r, hr⟩
      refine ⟨r, ?_⟩
      rw [decodeIgnore, if_pos h]
      simp [hr]
    · refine ⟨c :: t, ?_⟩
      rw [decodeIgnore, if_neg h]
      rfl

theorem decodeIgnore_replicate (n k : Nat) (c : Char) (h : c.utf8Size = 1) :
    decodeIgnore (List.replicate n c) k = List.replicate (min n k) c := by
  induction n generalizing k with
  | zero => simp [decodeIgnore]
  | succ m ih =>
    cases k with
    | zero =>
      rw [List.replicate_succ, decodeIgnore, h]
      simp
    | succ j =>
      rw [List.replicate_succ, decodeIgnore, h, if_pos (Nat.succ_le_succ (Nat.zero_le j))]
      simp [ih, Nat.succ_min_succ, List.replicate_succ]

theorem safe_truncate_c3input :
    safe_truncate c3input 16000 = List.replicate 15985 'a' ++ truncMarker := by
  have hmark : utf8Length truncMarker = 15 := by decide
  have hsize : Char.utf8Size 'a' = 1 := by decide
  have hlen : utf8Length c3input = 40000 := by
    rw [c3input, utf8Length_replicate, hsize]
  have hnot : ¬ utf8Length c3input ≤ 16000 := by omega
  unfold safe_truncate
  rw [if_neg hnot, hmark, c3input, decodeIgnore_replicate _ _ _ hsize]
  norm_num

/-- Claim C3 counterexample: for the 40000-byte input and the 16000-byte
limit, it is false that the result consists of 16000 bytes of content plus a
(nonempty) truncation marker: the whole returned string, marker included, is
exactly 16000 bytes, and no character of the fixed marker is a digit, so the
marker states no dropped byte count at all. -/
theorem truncation_claim_counterexample :
    utf8Length c3input = 40000 ∧
    utf8Length (safe_truncate c3input 16000) = 16000 ∧
    (¬ ∃ content marker : List Char,
        safe_truncate c3input 16000 = content ++ marker ∧
        utf8Length content = 16000 ∧ marker ≠ []) ∧
    (∀ c, c ∈ safe_truncate c3input 16000 → c.isDigit = false) := by
  have hmark : utf8Length truncMarker = 15 := by decide
  have hsize : Char.utf8Size 'a' = 1 := by decide
  have hlen : utf8Length c3input = 40000 := by
    rw [c3input, utf8Length_replicate, hsize]
  have htot : utf8Length (safe_truncate c3input 16000) = 16000 := by
    rw [safe_truncate_c3input, utf8Length_append, utf8Length_replicate, hsize, hmark]
  refine ⟨hlen, htot, ?_, ?_⟩
  · rintro ⟨content, marker, heq, hc, hm⟩
    rw [heq, utf8Length_append, hc] at htot
    have : utf8Length marker = 0 := by omega
    exact hm (utf8Length_eq_zero this)
  · have hdig : ∀ x, x ∈ truncMarker → x.isDigit = false := by decide
    intro c hc
    rw [safe_truncate_c3input] at hc
    rcases List.mem_append.1 hc with h | h
    · rw [List.eq_of_mem_replicate h]
      decide
    · exact hdig c h

/-- Claim C3 (amended): for any input strictly longer than the 16000-byte
limit, safe_truncate returns the longest character-aligned prefix fitting in
15985 bytes followed by the fixed 15-byte marker; the total is at most 16000
bytes (exactly 16000 for ASCII input, marker included, rather than 16000
bytes of content plus a marker); no multi-byte character is cut, and the
marker is a constant that does not state how many bytes were dropped. -/
theorem truncation_amended (s : List Char) (h : 16000 < utf8Length s) :
    safe_truncate s 16000 = decodeIgnore s 15985 ++ truncMarker ∧
    utf8Length (safe_truncate s 16000) ≤ 16000 ∧
    (∃ rest, decodeIgnore s 15985 ++ rest = s) ∧
    (∀ c, c ∈ truncMarker → c.isDigit = false) := by
  have hmark : utf8Length truncMarker = 15 := by decide
  have hdig : ∀ c, c ∈ truncMarker → c.isDigit = false := by decide
  have h1 : safe_truncate s 16000 = decodeIgnore s 15985 ++ truncMarker := by
    unfold safe_truncate
    rw [if_neg (by omega), hmark]
  refine ⟨h1, ?_, decodeIgnore_extends s 15985, hdig⟩
  rw [h1, utf8Length_append, hmark]
  have := decodeIgnore_le s 15985
  omega

/-- Claim C3 witness: the amended statement applied to a 20000-byte input. -/
theorem truncation_amended_witness :
    16000 < utf8Length c3altInput ∧
    (safe_truncate c3altInput 16000 = decodeIgnore c3altInput 15985 ++ truncMarker ∧
     utf8Length (safe_truncate c3altInput 16000) ≤ 16000 ∧
     (∃ rest, decodeIgnore c3altInput 15985 ++ rest = c3altInput) ∧
     (∀ c, c ∈ truncMarker → c.isDigit = false)) := by
  have hsize : Char.utf8Size 'b' = 1 := by decide
  have h : 16000 < utf8Length c3altInput := by
    rw [c3altInput, utf8Length_replicate, hsize]
    omega
  exact ⟨h, truncation_amended c3altInput h⟩

/-! Helper lemmas about the token-caching client. -/

theorem refresh_noop (st : ClientState) (now : Int) (net : HttpOutcome)
    (h : tokenValid st now = true) :
    refresh_token st now net = ⟨none, st, 0⟩ := by
  unfold refresh_token
  rw [if_pos h]

theorem refresh_authCalls_le_one (st : ClientState) (now : Int)
    (net : HttpOutcome) : (refresh_token st now net).authCalls ≤ 1 := by
  unfold refresh_token
  split
  · exact Nat.zero_le 1
  · cases authAttempt st now net
    exact Nat.le_refl 1

theorem refresh_calls_one (st : ClientState) (now : Int) (net : HttpOutcome)
    (h : tokenValid st now = false) :
    (refresh_token st now net).authCalls = 1 := by
  unfold refresh_token
  rw [if_neg (by simp [h])]

theorem request_authCalls (st : ClientState) (now : Int) (net : HttpOutcome) :
    (request st now net).authCalls = (refresh_token st now net).authCalls := by
  unfold request
  rcases h : refresh_token st now net with ⟨e, st2, n⟩
  cases e <;> rfl

theorem request_err_no_api (st : ClientState) (now : Int) (net : HttpOutcome)
    (h : (request st now net).err ≠ none) : (request st now net).apiCalls = 0 := by
  unfold request at h ⊢
  rcases hr : refresh_token st now net with ⟨e, st2, n⟩
  rw [hr] at h
  cases e with
  | none => exact absurd rfl h
  | some e0 => rfl

/-- Claim C4: with a truthy token whose expiry lies more than 60 seconds
ahead, refresh is a no-op (no authentication call, state untouched), hence
two successive requests under such a token issue at most one authentication
call in total; and whenever that guard fails, request performs exactly one
refresh authentication call before (and instead of, on failure) the outbound
call. -/
theorem token_reuse (st : ClientState) (now1 now2 : Int)
    (net1 net2 : HttpOutcome) (hvalid : tokenValid st now1 = true) :
    refresh_token st now1 net1 = ⟨none, st, 0⟩ ∧
    (request st now1 net1).authCalls
      + (request (request st now1 net1).state now2 net2).authCalls ≤ 1 ∧
    (∀ st2 now3 net3, tokenValid st2 now3 = false →
      (request st2 now3 net3).authCalls = 1 ∧
      ((request st2 now3 net3).err ≠ none →
        (request st2 now3 net3).apiCalls = 0)) := by
  have hreq : request st now1 net1 = ⟨none, st, 0, 1⟩ := by
    unfold request
    rw [refresh_noop st now1 net1 hvalid]
  refine ⟨refresh_noop st now1 net1 hvalid, ?_, ?_⟩
  · rw [hreq]
    have h2 := request_authCalls st now2 net2
    have h3 := refresh_authCalls_le_one st now2 net2
    simp only []
    omega
  · intro st2 now3 net3 hinv
    refine ⟨?_, request_err_no_api st2 now3 net3⟩
    rw [request_authCalls, refresh_calls_one st2 now3 net3 hinv]

/-- Claim C4 witness: the theorem applied to a token with 1000 seconds of
life at clock 0, with a second request at clock 500. -/
theorem token_reuse_witness :
    tokenValid validState 0 = true ∧
    (refresh_token validState 0 HttpOutcome.netFail = ⟨none, validState, 0⟩ ∧
     (request validState 0 HttpOutcome.netFail).authCalls
       + (request (request validState 0 HttpOutcome.netFail).state 500
            HttpOutcome.netFail).authCalls ≤ 1 ∧
     (∀ st2 now3 net3, tokenValid st2 now3 = false →
       (request st2 now3 net3).authCalls = 1 ∧
       ((request st2 now3 net3).err ≠ none →
         (request st2 now3 net3).apiCalls = 0))) := by
  have h : tokenValid validState 0 = true := by decide
  exact ⟨h, token_reuse validState 0 500 HttpOutcome.netFail HttpOutcome.netFail h⟩

/-! Helper lemmas for authentication failure handling. -/

theorem getItem_error (v : PyVal) (key : String) (e : PyError)
    (h : getItem v key = Except.error e) :
    e = PyError.keyError key ∨
      e = PyError.typeError ("value is not subscriptable") := by
  cases v with
  | obj fields =>
    cases hk : fields.lookup key with
    | some w => simp [getItem, hk] at h
    | none =>
      simp [getItem, hk] at h
      exact Or.inl h.symm
  | null =>
    simp [getItem] at h
    exact Or.inr h.symm
  | str s =>
    simp [getItem] at h
    exact Or.inr h.symm
  | num n =>
    simp [getItem] at h
    exact Or.inr h.symm

theorem authAttempt_error (st : ClientState) (now : Int) (net : HttpOutcome)
    (e : PyError) (h : (authAttempt st now net).1 = some e) :
    (authAttempt st now net).2 = st ∧ e ≠ PyError.wazuhAuthenticationError := by
  cases net with
  | netFail =>
    simp [authAttempt] at h
    subst h
    simp [authAttempt]
  | response status body =>
    by_cases hs : 400 ≤ status
    · simp [authAttempt, hs] at h
      subst h
      simp [authAttempt, hs]
    · cases body with
      | none =>
        simp [authAttempt, hs] at h
        subst h
        simp [authAttempt, hs]
      | some payload =>
        cases hd : getItem payload ("data") with
        | error e1 =>
          simp [authAttempt, hs, hd] at h
          subst h
          rcases getItem_error payload ("data") e1 hd with h1 | h1 <;>
            (subst h1; simp [authAttempt, hs, hd])
        | ok data =>
          cases ht : getItem data ("token") with
          | error e2 =>
            simp [authAttempt, hs, hd, ht] at h
            subst h
            rcases getItem_error data ("token") e2 ht with h1 | h1 <;>
              (subst h1; simp [authAttempt, hs, hd, ht])
          | ok tok =>
            simp [authAttempt, hs, hd, ht] at h

/-- Claim C5 counterexample: on a 401 response the refresh raises the
underlying httpx HTTPStatusError, an error kind distinct from
WazuhAuthenticationError, which the repository defines but never raises;
the stored token value and expiry are left unchanged. -/
theorem refresh_error_type_counterexample :
    (refresh_token staleState 1000 (HttpOutcome.response 401 none)).err
      = some (PyError.httpStatusError 401) ∧
    errKind (PyError.httpStatusError 401) ≠ errKind PyError.wazuhAuthenticationError ∧
    (refresh_token staleState 1000 (HttpOutcome.response 401 none)).state
      = staleState := by
  refine ⟨rfl, by decide, rfl⟩

/-- Claim C5 (amended): for every failing authentication attempt (non-2xx
response, network error, malformed or incomplete payload), refresh raises
the propagated underlying exception — never a WazuhAuthenticationError,
which is defined in exceptions.py but raised nowhere — and it leaves the
previously stored token value and expiry unchanged (the two assignments sit
after every failure point, so the update is all-or-nothing). -/
theorem refresh_failure_atomic (st : ClientState) (now : Int)
    (net : HttpOutcome) (e : PyError)
    (herr : (refresh_token st now net).err = some e) :
    (refresh_token st now net).state = st ∧
    (refresh_token st now net).authCalls = 1 ∧
    e ≠ PyError.wazuhAuthenticationError := by
  by_cases hv : tokenValid st now
  · rw [refresh_noop st now net hv] at herr
    exact absurd herr (by simp)
  · rcases ha : authAttempt st now net with ⟨e1, st1⟩
    have hform : refresh_token st now net = ⟨e1, st1, 1⟩ := by
      unfold refresh_token
      rw [if_neg hv, ha]
    rw [hform] at herr ⊢
    have hae : (authAttempt st now net).1 = some e := by
      rw [ha]
      exact herr
    have h2 := authAttempt_error st now net e hae
    rw [ha] at h2
    exact ⟨h2.1, rfl, h2.2⟩

/-- Claim C5 witness: the amended statement applied to a network failure
against a client holding a stale token. -/
theorem refresh_failure_atomic_witness :
    (refresh_token staleState 1000 HttpOutcome.netFail).err
      = some PyError.connectError ∧
    ((refresh_token staleState 1000 HttpOutcome.netFail).state = staleState ∧
     (refresh_token staleState 1000 HttpOutcome.netFail).authCalls = 1 ∧
     PyError.connectError ≠ PyError.wazuhAuthenticationError) := by
  have h : (refresh_token staleState 1000 HttpOutcome.netFail).err
      = some PyError.connectError := rfl
  exact ⟨h, refresh_failure_atomic staleState 1000 HttpOutcome.netFail
    PyError.connectError h⟩

/-- Claim C6: a registered-but-policy-denied operation name and a
never-registered name produce exactly the same outcome from call_tool: the
lookup goes only through the enabled set, both misses raise a ValueError of
the same kind with the same message shape, so the caller cannot tell the two
apart. -/
theorem unknown_denied_indistinguishable (registry : List Tool)
    (cfg : FilterConfig) (n1 n2 : String) (args : PyVal)
    (hreg : ∃ t, t ∈ registry ∧ t.name = n1)
    (hden : ∀ t ∈ get_enabled_tools registry cfg, t.name ≠ n1)
    (hnever : ∀ t ∈ registry, t.name ≠ n2) :
    call_tool (get_enabled_tools registry cfg) n1 args
      = CallOutcome.raised
          (PyError.valueError ("Tool " ++ n1 ++ " is disabled or unknown")) ∧
    call_tool (get_enabled_tools registry cfg) n2 args
      = CallOutcome.raised
          (PyError.valueError ("Tool " ++ n2 ++ " is disabled or unknown")) ∧
    errKind (PyError.valueError ("Tool " ++ n1 ++ " is disabled or unknown"))
      = errKind (PyError.valueError ("Tool " ++ n2 ++ " is disabled or unknown")) := by
  have hfind1 : (get_enabled_tools registry cfg).find? (fun t => t.name == n1)
      = none := by
    rw [List.find?_eq_none]
    intro t ht
    simpa using hden t ht
  have hfind2 : (get_enabled_tools registry cfg).find? (fun t => t.name == n2)
      = none := by
    rw [List.find?_eq_none]
    intro t ht
    simpa using hnever t ((mem_enabled_iff registry cfg t).1 ht).1
  refine ⟨?_, ?_, rfl⟩
  · unfold call_tool
    rw [hfind1]
  · unfold call_tool
    rw [hfind2]

/-- Claim C6 witness: with AuthenticateTool denied by name, invoking it and
invoking the never-registered NoSuchTool raise the same-kind ValueError. -/
theorem unknown_denied_indistinguishable_witness :
    (∃ t, t ∈ TOOL_REGISTRY ∧ t.name = "AuthenticateTool") ∧
    (call_tool (get_enabled_tools TOOL_REGISTRY denyAuthConfig)
        ("AuthenticateTool") PyVal.null
      = CallOutcome.raised (PyError.valueError
          ("Tool " ++ "AuthenticateTool" ++ " is disabled or unknown")) ∧
     call_tool (get_enabled_tools TOOL_REGISTRY denyAuthConfig)
        ("NoSuchTool") PyVal.null
      = CallOutcome.raised (PyError.valueError
          ("Tool " ++ "NoSuchTool" ++ " is disabled or unknown")) ∧
     errKind (PyError.valueError ("Tool " ++ "AuthenticateTool" ++ " is disabled or unknown"))
      = errKind (PyError.valueError ("Tool " ++ "NoSuchTool" ++ " is disabled or unknown"))) := by
  have hreg : ∃ t, t ∈ TOOL_REGISTRY ∧ t.name = "AuthenticateTool" :=
    ⟨auth_tool, by decide, rfl⟩
  have hden : ∀ t ∈ get_enabled_tools TOOL_REGISTRY denyAuthConfig,
      t.name ≠ "AuthenticateTool" := by decide
  have hnever : ∀ t ∈ TOOL_REGISTRY, t.name ≠ "NoSuchTool" := by decide
  exact ⟨hreg, unknown_denied_indistinguishable TOOL_REGISTRY denyAuthConfig
    ("AuthenticateTool") ("NoSuchTool") PyVal.null hreg hden hnever⟩

/-- Claim C7 counterexample: with a client for the default cluster already
cached, get_client invoked for the unconfigured target other silently
returns that cached client (built from cfgA) and raises nothing, instead of
failing with an unknown-target error. -/
theorem get_client_counterexample :
    get_client (some clientA) ("other") (some defaultRegistry) []
      = Except.ok (clientA, some clientA) ∧
    defaultRegistry.lookup ("other") = none ∧
    (∀ e : PyError, get_client (some clientA) ("other") (some defaultRegistry) []
        ≠ Except.error e) ∧
    clientA.cluster = cfgA := by
  refine ⟨rfl, rfl, ?_, rfl⟩
  intro e h
  exact Except.noConfusion h

/-- Claim C7 (amended): get_client maintains one process-wide cached client
and ignores its cluster_name argument entirely: its result is the same for
any two target identifiers, and once a client is cached it is returned for
every target identifier; no unknown-target error exists (on first use the
client is built from the default registry entry or the first environment
cluster, regardless of the requested target). -/
theorem get_client_singleton (g : Option WClient) (name1 name2 : String)
    (registry : Option (List (String × ClusterConfig)))
    (env_clusters : List ClusterConfig) :
    get_client g name1 registry env_clusters
      = get_client g name2 registry env_clusters ∧
    (∀ c, g = some c →
      get_client g name1 registry env_clusters = Except.ok (c, some c)) := by
  refine ⟨rfl, ?_⟩
  intro c hc
  subst hc
  rfl

/-- Claim C7 witness: the amended statement applied to the cached client for
cfgA and two different target identifiers. -/
theorem get_client_singleton_witness :
    get_client (some clientA) ("alpha") (some defaultRegistry) []
      = get_client (some clientA) ("beta") (some defaultRegistry) [] ∧
    get_client (some clientA) ("alpha") (some defaultRegistry) []
      = Except.ok (clientA, some clientA) := by
  have h := get_client_singleton (some clientA) ("alpha") ("beta")
    (some defaultRegistry) []
  exact ⟨h.1, h.2 clientA rfl⟩

/-- Claim C8 counterexample: two concurrent request coroutines against a
client with no token, interleaved so that both run the expiry check before
either refresh completes, both finish yet issue two authentication calls,
not one. -/
theorem single_flight_counterexample :
    tokenValid expiredState 1000 = false ∧
    (runSchedule 1000 (PyVal.str ("T")) [0, 1, 0, 1] (twoTasks expiredState)).authCalls
      = 2 ∧
    (runSchedule 1000 (PyVal.str ("T")) [0, 1, 0, 1] (twoTasks expiredState)).phases
      = [TaskPhase.finished, TaskPhase.finished] ∧
    (2 : Nat) ≠ 1 := by
  exact ⟨rfl, rfl, rfl, by decide⟩

/-- Claim C8 (amended): the client has no single-flight protection.  For a
client whose token fails the expiry check, two concurrent requests issue one
authentication call only under the interleaving in which the first refresh
completes before the second coroutine runs its check; under the overlapped
interleaving, where both coroutines check before either refresh completes,
each issues its own authentication call, two in total (and in general up to
N for N coroutines). -/
theorem single_flight_amended (st : ClientState) (now : Int) (tok : String)
    (hinvalid : tokenValid st now = false) (htok : tok ≠ "") :
    (runSchedule now (PyVal.str tok) [0, 0, 1, 1] (twoTasks st)).authCalls = 1 ∧
    (runSchedule now (PyVal.str tok) [0, 1, 0, 1] (twoTasks st)).authCalls = 2 := by
  have hfresh : tokenValid ⟨some (PyVal.str tok), now + 900⟩ now = true := by
    have h60 : (now + 900 : Int) - now > 60 := by omega
    simp [tokenValid, PyVal.truthy, htok, h60]
  constructor
  · have e1 : stepTask now (PyVal.str tok) (twoTasks st) 0
        = ⟨st, [TaskPhase.awaitingAuth, TaskPhase.ready], 1⟩ := by
      simp [stepTask, twoTasks, hinvalid]
    have e2 : stepTask now (PyVal.str tok)
        ⟨st, [TaskPhase.awaitingAuth, TaskPhase.ready], 1⟩ 0
        = ⟨⟨some (PyVal.str tok), now + 900⟩,
           [TaskPhase.finished, TaskPhase.ready], 1⟩ := by
      simp [stepTask]
    have e3 : stepTask now (PyVal.str tok)
        ⟨⟨some (PyVal.str tok), now + 900⟩, [TaskPhase.finished, TaskPhase.ready], 1⟩ 1
        = ⟨⟨some (PyVal.str tok), now + 900⟩,
           [TaskPhase.finished, TaskPhase.finished], 1⟩ := by
      simp [stepTask, hfresh]
    have e4 : stepTask now (PyVal.str tok)
        ⟨⟨some (PyVal.str tok), now + 900⟩, [TaskPhase.finished, TaskPhase.finished], 1⟩ 1
        = ⟨⟨some (PyVal.str tok), now + 900⟩,
           [TaskPhase.finished, TaskPhase.finished], 1⟩ := by
      simp [stepTask]
    show (stepTask now (PyVal.str tok) (stepTask now (PyVal.str tok)
      (stepTask now (PyVal.str tok) (stepTask now (PyVal.str tok)
        (twoTasks st) 0) 0) 1) 1).authCalls = 1
    rw [e1, e2, e3, e4]
  · have e1 : stepTask now (PyVal.str tok) (twoTasks st) 0
        = ⟨st, [TaskPhase.awaitingAuth, TaskPhase.ready], 1⟩ := by
      simp [stepTask, twoTasks, hinvalid]
    have e2 : stepTask now (PyVal.str tok)
        ⟨st, [TaskPhase.awaitingAuth, TaskPhase.ready], 1⟩ 1
        = ⟨st, [TaskPhase.awaitingAuth, TaskPhase.awaitingAuth], 2⟩ := by
      simp [stepTask, hinvalid]
    have e3 : stepTask now (PyVal.str tok)
        ⟨st, [TaskPhase.awaitingAuth, TaskPhase.awaitingAuth], 2⟩ 0
        = ⟨⟨some (PyVal.str tok), now + 900⟩,
           [TaskPhase.finished, TaskPhase.awaitingAuth], 2⟩ := by
      simp [stepTask]
    have e4 : stepTask now (PyVal.str tok)
        ⟨⟨some (PyVal.str tok), now + 900⟩, [TaskPhase.finished, TaskPhase.awaitingAuth], 2⟩ 1
        = ⟨⟨some (PyVal.str tok), now + 900⟩,
           [TaskPhase.finished, TaskPhase.finished], 2⟩ := by
      simp [stepTask]
    show (stepTask now (PyVal.str tok) (stepTask now (PyVal.str tok)
      (stepTask now (PyVal.str tok) (stepTask now (PyVal.str tok)
        (twoTasks st) 0) 1) 0) 1).authCalls = 2
    rw [e1, e2, e3, e4]

/-- Claim C8 witness: the amended statement applied to a tokenless client at
clock 500. -/
theorem single_flight_amended_witness :
    tokenValid expiredState 500 = false ∧ ("T2" : String) ≠ "" ∧
    ((runSchedule 500 (PyVal.str ("T2")) [0, 0, 1, 1] (twoTasks expiredState)).authCalls
        = 1 ∧
     (runSchedule 500 (PyVal.str ("T2")) [0, 1, 0, 1] (twoTasks expiredState)).authCalls
        = 2) := by
  exact ⟨rfl, by decide,
    single_flight_amended expiredState 500 ("T2") rfl (by decide)⟩

/-- Claim C10: the GetAgentsTool handler calls list_agents with one
positional argument (the registry, landing in the cluster_name slot) and the
keyword argument params, while list_agents declares the three mandatory
parameters cluster_name, registry and params; Python argument binding
therefore fails with a TypeError naming the missing registry parameter on
every invocation, before any HTTP request is attempted, so the handler can
never return a success payload. -/
theorem get_agents_tool_always_fails (st : ClientState) (now : Int)
    (authNet : HttpOutcome) (apiResp : PyVal) :
    bindCheck ("list_agents") list_agents_params 1 [("params")]
      = Except.error (PyError.typeError
          ("list_agents() missing required positional arguments: registry")) ∧
    get_agents_tool_run st now authNet apiResp
      = ⟨Except.error (PyError.typeError
          ("list_agents() missing required positional arguments: registry")), 0⟩ := by
  exact ⟨rfl, rfl⟩
